import Mathlib

/-!
Verification of the OCS2 double-integrator example dynamics and the DDP
solver settings against their specification.

The double-integrator dynamics and the DDP_Settings structure (defaults and
loadSettings) are embedded from the C++ source.  Doubles are modelled as
rationals, size_t as Nat, int as Int.  Configuration-file access through the
boost property tree is modelled by a record of optional values: a field holds
some v exactly when the corresponding key is present in the file, and
loadPtreeValue keeps the current value when the key is absent, mirroring the
source helper.

Parts of the solver referenced by the spec whose sources are not in this
repository snapshot (Strategy_Settings.h, the rollout integrator, the Riccati
backward pass) are modelled from the spec and marked as such in their doc
comments.
-/

namespace OCS2

/-- Embeds DoubleIntegratorDynamics: the 2x2 state matrix A and the 2x1 input
matrix B set by the constructor.  State dimension 2, input dimension 1. -/
structure DoubleIntegratorDynamics where
  a00 : ℚ
  a01 : ℚ
  a10 : ℚ
  a11 : ℚ
  b0 : ℚ
  b1 : ℚ
deriving DecidableEq

/-- Embeds the constructor DoubleIntegratorDynamics(double mass):
A << 0, 1, 0, 0 (row major) and B << 0, 1/mass. -/
def DoubleIntegratorDynamics.ofMass (mass : ℚ) : DoubleIntegratorDynamics :=
  { a00 := 0, a01 := 1, a10 := 0, a11 := 0, b0 := 0, b1 := 1 / mass }

/-- Embeds computeFlowMap: stateDerivative = A_ * state + B_ * input,
written out componentwise for the 2-dimensional state and scalar input. -/
def DoubleIntegratorDynamics.computeFlowMap (d : DoubleIntegratorDynamics)
    (time : ℚ) (state : ℚ × ℚ) (input : ℚ) : ℚ × ℚ :=
  (d.a00 * state.1 + d.a01 * state.2 + d.b0 * input,
   d.a10 * state.1 + d.a11 * state.2 + d.b1 * input)

/-- Fallible view of the constructor: the source computes 1.0/mass with no
guard, so the construction is well defined exactly when mass is nonzero; the
none case marks the unguarded division by zero. -/
def DoubleIntegratorDynamics.ofMass? (mass : ℚ) : Option DoubleIntegratorDynamics :=
  if mass = 0 then none else some (DoubleIntegratorDynamics.ofMass mass)

/-- Modelled from the spec: the strategy selector of Strategy_Settings.h
(not under src), with the two documented choices line-search and
trust-region. -/
inductive DDP_Strategy
  | LINE_SEARCH
  | TRUST_REGION
deriving DecidableEq

/-- Modelled from the spec: the toString conversion used by loadSettings for
the strategy name; the spec names the options line-search and trust-region. -/
def DDP_Strategy.toText : DDP_Strategy → String
  | .LINE_SEARCH => "line-search"
  | .TRUST_REGION => "trust-region"

/-- Modelled from the spec: the fromString conversion used by loadSettings;
an unrecognized name falls back to the default line-search choice. -/
def DDP_Strategy.ofText (s : String) : DDP_Strategy :=
  if s = "trust-region" then .TRUST_REGION else .LINE_SEARCH

/-- Modelled from the spec: the line-search strategy sub-settings
(Strategy_Settings.h is not under src).  Its named options are abstracted as
an association list of option name and value. -/
structure Line_Search where
  options : List (String × ℚ) := []
deriving DecidableEq

/-- Modelled from the spec: Line_Search::loadSettings reads the lineSearch
sub-block of the configuration; a present block overrides the member, an
absent one keeps it. -/
def Line_Search.loadSettings (block : Option Line_Search) (cur : Line_Search) :
    Line_Search :=
  block.getD cur

/-- Modelled from the spec: the trust-region strategy sub-settings
(Strategy_Settings.h is not under src). -/
structure Trust_Region where
  options : List (String × ℚ) := []
deriving DecidableEq

/-- Modelled from the spec: Trust_Region::loadSettings reads the trustRegion
sub-block of the configuration; a present block overrides the member, an
absent one keeps it. -/
def Trust_Region.loadSettings (block : Option Trust_Region) (cur : Trust_Region) :
    Trust_Region :=
  block.getD cur

/-- Embeds struct DDP_Settings with its member defaults. -/
structure DDP_Settings where
  maxNumIterations_ : ℕ := 15
  minRelCost_ : ℚ := 1 / 1000
  stateConstraintPenaltyCoeff_ : ℚ := 0
  stateConstraintPenaltyBase_ : ℚ := 1
  inequalityConstraintMu_ : ℚ := 0
  inequalityConstraintDelta_ : ℚ := 1 / 1000000
  meritFunctionRho_ : ℚ := 1
  constraintStepSize_ : ℚ := 1
  displayInfo_ : Bool := false
  displayShortSummary_ : Bool := false
  absTolODE_ : ℚ := 1 / 1000000000
  relTolODE_ : ℚ := 1 / 1000000
  maxNumStepsPerSecond_ : ℕ := 10000
  minTimeStep_ : ℚ := 1 / 1000
  minAbsConstraint1ISE_ : ℚ := 1 / 1000
  minRelConstraint1ISE_ : ℚ := 1 / 1000
  simulationIsConstrained_ : Bool := false
  noStateConstraints_ : Bool := false
  checkNumericalStability_ : Bool := true
  nThreads_ : ℕ := 1
  threadPriority_ : ℤ := 99
  useRiccatiSolver_ : Bool := true
  useFeedbackPolicy_ : Bool := false
  debugPrintRollout_ : Bool := false
  debugCaching_ : Bool := false
  strategy_ : DDP_Strategy := .LINE_SEARCH
  lineSearch_ : Line_Search := {}
  trustRegion_ : Trust_Region := {}
deriving DecidableEq

/-- Default-constructed DDP_Settings, every member at its documented default. -/
def ddpDefault : DDP_Settings := {}

/-- The configuration file under the given field name, as seen by
loadSettings: one optional entry per property-tree key it queries.  An entry
is some v exactly when the key occurs in the file. -/
structure ConfigFile where
  nThreads : Option ℕ := none
  threadPriority : Option ℤ := none
  maxNumIterations : Option ℕ := none
  minRelCost : Option ℚ := none
  stateConstraintPenaltyCoeff : Option ℚ := none
  stateConstraintPenaltyBase : Option ℚ := none
  inequalityConstraintMu : Option ℚ := none
  inequalityConstraintDelta : Option ℚ := none
  meritFunctionRho : Option ℚ := none
  constraintStepSize : Option ℚ := none
  displayInfo : Option Bool := none
  displayShortSummary : Option Bool := none
  AbsTolODE : Option ℚ := none
  RelTolODE : Option ℚ := none
  maxNumStepsPerSecond : Option ℕ := none
  minTimeStep : Option ℚ := none
  simulationIsConstrained : Option Bool := none
  noStateConstraints : Option Bool := none
  minAbsConstraint1ISE : Option ℚ := none
  minRelConstraint1ISE : Option ℚ := none
  checkNumericalStability : Option Bool := none
  useRiccatiSolver : Option Bool := none
  useFeedbackPolicy : Option Bool := none
  debugPrintRollout : Option Bool := none
  debugCaching : Option Bool := none
  strategy : Option String := none
  lineSearch : Option Line_Search := none
  trustRegion : Option Trust_Region := none

/-- Embeds loadData::loadPtreeValue: when the key is present in the tree the
member takes the stored value, otherwise it keeps its current value; the
verbose flag only controls printing and does not touch the value. -/
def loadPtreeValue {α : Type} (entry : Option α) (cur : α) (verbose : Bool) : α :=
  match entry with
  | some v => v
  | none => cur

/-- Embeds DDP_Settings::loadSettings: one loadPtreeValue per member in
source order, then the strategy name round-trip through toString/fromString,
then the switch on the loaded strategy that loads exactly one of the two
strategy sub-setting blocks. -/
def DDP_Settings.loadSettings (pt : ConfigFile) (verbose : Bool)
    (s : DDP_Settings) : DDP_Settings :=
  let nThreads_ := loadPtreeValue pt.nThreads s.nThreads_ verbose
  let threadPriority_ := loadPtreeValue pt.threadPriority s.threadPriority_ verbose
  let maxNumIterations_ := loadPtreeValue pt.maxNumIterations s.maxNumIterations_ verbose
  let minRelCost_ := loadPtreeValue pt.minRelCost s.minRelCost_ verbose
  let stateConstraintPenaltyCoeff_ :=
    loadPtreeValue pt.stateConstraintPenaltyCoeff s.stateConstraintPenaltyCoeff_ verbose
  let stateConstraintPenaltyBase_ :=
    loadPtreeValue pt.stateConstraintPenaltyBase s.stateConstraintPenaltyBase_ verbose
  let inequalityConstraintMu_ :=
    loadPtreeValue pt.inequalityConstraintMu s.inequalityConstraintMu_ verbose
  let inequalityConstraintDelta_ :=
    loadPtreeValue pt.inequalityConstraintDelta s.inequalityConstraintDelta_ verbose
  let meritFunctionRho_ := loadPtreeValue pt.meritFunctionRho s.meritFunctionRho_ verbose
  let constraintStepSize_ := loadPtreeValue pt.constraintStepSize s.constraintStepSize_ verbose
  let displayInfo_ := loadPtreeValue pt.displayInfo s.displayInfo_ verbose
  let displayShortSummary_ := loadPtreeValue pt.displayShortSummary s.displayShortSummary_ verbose
  let absTolODE_ := loadPtreeValue pt.AbsTolODE s.absTolODE_ verbose
  let relTolODE_ := loadPtreeValue pt.RelTolODE s.relTolODE_ verbose
  let maxNumStepsPerSecond_ :=
    loadPtreeValue pt.maxNumStepsPerSecond s.maxNumStepsPerSecond_ verbose
  let minTimeStep_ := loadPtreeValue pt.minTimeStep s.minTimeStep_ verbose
  let simulationIsConstrained_ :=
    loadPtreeValue pt.simulationIsConstrained s.simulationIsConstrained_ verbose
  let noStateConstraints_ := loadPtreeValue pt.noStateConstraints s.noStateConstraints_ verbose
  let minAbsConstraint1ISE_ :=
    loadPtreeValue pt.minAbsConstraint1ISE s.minAbsConstraint1ISE_ verbose
  let minRelConstraint1ISE_ :=
    loadPtreeValue pt.minRelConstraint1ISE s.minRelConstraint1ISE_ verbose
  let checkNumericalStability_ :=
    loadPtreeValue pt.checkNumericalStability s.checkNumericalStability_ verbose
  let useRiccatiSolver_ := loadPtreeValue pt.useRiccatiSolver s.useRiccatiSolver_ verbose
  let useFeedbackPolicy_ := loadPtreeValue pt.useFeedbackPolicy s.useFeedbackPolicy_ verbose
  let debugPrintRollout_ := loadPtreeValue pt.debugPrintRollout s.debugPrintRollout_ verbose
  let debugCaching_ := loadPtreeValue pt.debugCaching s.debugCaching_ verbose
  let strategyName := loadPtreeValue pt.strategy s.strategy_.toText verbose
  let strategy_ := DDP_Strategy.ofText strategyName
  let s1 : DDP_Settings :=
    { s with
      nThreads_ := nThreads_
      threadPriority_ := threadPriority_
      maxNumIterations_ := maxNumIterations_
      minRelCost_ := minRelCost_
      stateConstraintPenaltyCoeff_ := stateConstraintPenaltyCoeff_
      stateConstraintPenaltyBase_ := stateConstraintPenaltyBase_
      inequalityConstraintMu_ := inequalityConstraintMu_
      inequalityConstraintDelta_ := inequalityConstraintDelta_
      meritFunctionRho_ := meritFunctionRho_
      constraintStepSize_ := constraintStepSize_
      displayInfo_ := displayInfo_
      displayShortSummary_ := displayShortSummary_
      absTolODE_ := absTolODE_
      relTolODE_ := relTolODE_
      maxNumStepsPerSecond_ := maxNumStepsPerSecond_
      minTimeStep_ := minTimeStep_
      simulationIsConstrained_ := simulationIsConstrained_
      noStateConstraints_ := noStateConstraints_
      minAbsConstraint1ISE_ := minAbsConstraint1ISE_
      minRelConstraint1ISE_ := minRelConstraint1ISE_
      checkNumericalStability_ := checkNumericalStability_
      useRiccatiSolver_ := useRiccatiSolver_
      useFeedbackPolicy_ := useFeedbackPolicy_
      debugPrintRollout_ := debugPrintRollout_
      debugCaching_ := debugCaching_
      strategy_ := strategy_ }
  match strategy_ with
  | .LINE_SEARCH =>
      { s1 with lineSearch_ := Line_Search.loadSettings pt.lineSearch s.lineSearch_ }
  | .TRUST_REGION =>
      { s1 with trustRegion_ := Trust_Region.loadSettings pt.trustRegion s.trustRegion_ }

/-- Modelled from the spec: the error taxonomy of the solver (section 7 of
the spec; the solver sources are not under src), together with the terminal
Failed outcome. -/
inductive DdpError
  | IntegrationFailure
  | NumericalInstability
  | ConstraintInfeasible
  | ConfigurationError
  | Failed
deriving DecidableEq

/-- Modelled from the spec: the per-iteration state-only constraint penalty
p(i) = alpha * a^i, with alpha = stateConstraintPenaltyCoeff_ and
a = stateConstraintPenaltyBase_ (the formula documented at the members in
DDP_Settings; the backward-pass source applying it is not under src). -/
def stateConstraintPenalty (coeff base : ℚ) (i : ℕ) : ℚ :=
  coeff * base ^ i

/-- Modelled from the spec: one adaptive integration step of the rollout
(the integrator source is not under src).  The candidate step sizes are
minStep * 2^k downward: a candidate whose local error exceeds the tolerance
is rejected and the step is halved, down to the minimum step size minStep;
when even the minimum step exceeds the tolerance, the step fails with
IntegrationFailure.  err gives the local error of a candidate step size. -/
def rolloutStep (err : ℚ → ℚ) (tol minStep : ℚ) : ℕ → Except DdpError ℚ
  | 0 => if err minStep ≤ tol then .ok minStep else .error .IntegrationFailure
  | k + 1 =>
      if err (minStep * 2 ^ (k + 1)) ≤ tol then .ok (minStep * 2 ^ (k + 1))
      else rolloutStep err tol minStep k

/-- Modelled from the spec: the per-sample data of one solver iteration that
the state-only constraint handling consumes (the solver sources are not
under src): the running-cost contributions and the state-only constraint
values along the rolled-out trajectory. -/
structure OCProblemData where
  costSamples : List ℚ
  stateConstraintSamples : List ℚ
deriving DecidableEq

/-- The same problem with its state-only constraints removed. -/
def removeStateOnlyConstraints (p : OCProblemData) : OCProblemData :=
  { p with stateConstraintSamples := [] }

/-- Modelled from the spec: the state-only constraint ISE accumulated by the
rollout; with noStateConstraints set, the computation is skipped and the
metric stays zero. -/
def stateConstraintISE (noStateConstraints : Bool) (p : OCProblemData) : ℚ :=
  if noStateConstraints then 0
  else (p.stateConstraintSamples.map (fun g => g * g)).sum

/-- Modelled from the spec: the penalized cost of one iteration; with
noStateConstraints set, no exponential penalty term is added to the cost. -/
def penalizedCost (noStateConstraints : Bool) (coeff base : ℚ) (iter : ℕ)
    (p : OCProblemData) : ℚ :=
  p.costSamples.sum +
    (if noStateConstraints then 0
     else stateConstraintPenalty coeff base iter * stateConstraintISE false p)

/-- The scalar results of one iteration that state-only constraint handling
influences: the penalized cost and the constraint ISE. -/
def iterationSummary (noStateConstraints : Bool) (coeff base : ℚ) (iter : ℕ)
    (p : OCProblemData) : ℚ × ℚ :=
  (penalizedCost noStateConstraints coeff base iter p,
   stateConstraintISE noStateConstraints p)

/-- A symmetric 2x2 matrix, the value-function Hessian at one time sample. -/
structure Sym2 where
  a : ℚ
  b : ℚ
  c : ℚ
deriving DecidableEq

/-- Positive semidefiniteness of a symmetric 2x2 matrix: nonnegative diagonal
and nonnegative determinant. -/
def Sym2.isPSD (M : Sym2) : Bool :=
  decide (0 ≤ M.a) && decide (0 ≤ M.c) && decide (M.b * M.b ≤ M.a * M.c)

/-- Modelled from the spec: the feedback gain computed from the
value-function Hessian at one sample (the backward-pass source is not under
src); its exact formula is irrelevant to the stability-check claim. -/
def riccatiGain (M : Sym2) : ℚ × ℚ :=
  (M.b, M.c)

/-- Modelled from the spec: the Riccati backward pass over the time samples
(terminal to initial).  With checkNumericalStability set, a sample whose
value-function Hessian is not positive semidefinite aborts the pass with
NumericalInstability and no gains are returned; otherwise the gains of all
samples are returned. -/
def backwardPass (check : Bool) : List Sym2 → Except DdpError (List (ℚ × ℚ))
  | [] => .ok []
  | M :: rest =>
      if check && !M.isPSD then .error .NumericalInstability
      else
        match backwardPass check rest with
        | .ok gains => .ok (riccatiGain M :: gains)
        | .error e => .error e

/-- Modelled from the spec: Hessian regularization, shifting the diagonal by
delta before a retry of the backward pass. -/
def regularizeHessian (delta : ℚ) (M : Sym2) : Sym2 :=
  { a := M.a + delta, b := M.b, c := M.c + delta }

/-- The Hessian samples presented to the j-th backward-pass attempt:
attempt 0 sees the original samples, each retry sees the previous samples
regularized once more. -/
def attemptSamples (delta : ℚ) (samples : List Sym2) : ℕ → List Sym2
  | 0 => samples
  | j + 1 => (attemptSamples delta samples j).map (regularizeHessian delta)

/-- Modelled from the spec: the bounded retry loop around the backward pass;
a failed pass triggers a Hessian-regularization retry, and when the attempt
budget is exhausted the whole solve is reported Failed. -/
def solveBackward (check : Bool) (samples : List Sym2) (delta : ℚ) :
    ℕ → Except DdpError (List (ℚ × ℚ))
  | 0 => .error .Failed
  | n + 1 =>
      match backwardPass check samples with
      | .ok gains => .ok gains
      | .error _ =>
          solveBackward check (samples.map (regularizeHessian delta)) delta n

/-! Helper lemmas shared by the claim theorems. -/

lemma loadPtreeValue_eq_getD {α : Type} (entry : Option α) (cur : α) (verbose : Bool) :
    loadPtreeValue entry cur verbose = entry.getD cur := by
  cases entry <;> rfl

lemma ofText_toText (v : DDP_Strategy) : DDP_Strategy.ofText v.toText = v := by
  cases v <;> rfl

/-- C1: for every time, state, input and nonzero mass, computeFlowMap of the
constructed double-integrator dynamics returns the state derivative
A*x + B*u = (velocity, input/mass). -/
theorem di_computeFlowMap_eq (time : ℚ) (x : ℚ × ℚ) (u mass : ℚ) (hm : mass ≠ 0) :
    (DoubleIntegratorDynamics.ofMass mass).computeFlowMap time x u = (x.2, u / mass) := by
  simp [DoubleIntegratorDynamics.ofMass, DoubleIntegratorDynamics.computeFlowMap,
    one_div, inv_mul_eq_div]

/-- Witness for C1 at time 0, state (3, 4), input 5, mass 2. -/
theorem di_computeFlowMap_eq_witness :
    (2 : ℚ) ≠ 0 ∧
      (DoubleIntegratorDynamics.ofMass 2).computeFlowMap 0 (3, 4) 5 = (4, 5 / 2) :=
  ⟨by norm_num, di_computeFlowMap_eq 0 (3, 4) 5 2 (by norm_num)⟩

/-- C9: the constructor divides by mass with no guard, so construction is
well defined exactly under the precondition mass ≠ 0; at mass = 0 the
division-by-zero case is reached, and for nonzero mass the division-error
branch is unreachable. -/
theorem di_mass_nonzero_precondition (mass : ℚ) :
    (mass ≠ 0 →
        DoubleIntegratorDynamics.ofMass? mass =
          some (DoubleIntegratorDynamics.ofMass mass)) ∧
      DoubleIntegratorDynamics.ofMass? 0 = none := by
  constructor
  · intro hm
    simp [DoubleIntegratorDynamics.ofMass?, hm]
  · simp [DoubleIntegratorDynamics.ofMass?]

/-- Witness for C9 at mass 3. -/
theorem di_mass_nonzero_precondition_witness :
    (3 : ℚ) ≠ 0 ∧
      DoubleIntegratorDynamics.ofMass? 3 = some (DoubleIntegratorDynamics.ofMass 3) :=
  ⟨by norm_num, (di_mass_nonzero_precondition 3).1 (by norm_num)⟩

/-- C4: the state-only constraint penalty grows geometrically in the
outer-iteration index, p(i+1) = base * p(i) with p(0) = coeff, and with the
default settings stateConstraintPenaltyCoeff_ = 0 and
stateConstraintPenaltyBase_ = 1 the penalty is 0 at every iteration. -/
theorem ddp_statePenalty_geometric (coeff base : ℚ) (i : ℕ) :
    stateConstraintPenalty coeff base (i + 1) = base * stateConstraintPenalty coeff base i ∧
      stateConstraintPenalty coeff base 0 = coeff ∧
      stateConstraintPenalty ddpDefault.stateConstraintPenaltyCoeff_
        ddpDefault.stateConstraintPenaltyBase_ i = 0 := by
  refine ⟨?_, ?_, ?_⟩
  · simp [stateConstraintPenalty, pow_succ]
    ring
  · simp [stateConstraintPenalty]
  · simp [stateConstraintPenalty, ddpDefault]

/-- C7: with noStateConstraints set, a problem with state-only constraints
produces the same iteration results (penalized cost and constraint ISE) as
the same problem with the state-only constraints removed: no ISE is
computed and no penalty is added. -/
theorem noStateConstraints_ignores_constraints (coeff base : ℚ) (iter : ℕ)
    (p : OCProblemData) :
    iterationSummary true coeff base iter p =
      iterationSummary false coeff base iter (removeStateOnlyConstraints p) := by
  simp [iterationSummary, penalizedCost, stateConstraintISE, removeStateOnlyConstraints]

/-- C10: the verbose flag of loadSettings does not influence the loaded
configuration; it only controls diagnostic printing, which the value-level
semantics does not observe. -/
theorem ddp_loadSettings_verbose_noninterference (pt : ConfigFile) (s : DDP_Settings) :
    DDP_Settings.loadSettings pt true s = DDP_Settings.loadSettings pt false s := rfl

lemma loadSettings_eq_line_search (pt : ConfigFile) (verbose : Bool) (s : DDP_Settings)
    (h : DDP_Strategy.ofText (loadPtreeValue pt.strategy s.strategy_.toText verbose) =
      DDP_Strategy.LINE_SEARCH) :
    DDP_Settings.loadSettings pt verbose s =
      { maxNumIterations_ := pt.maxNumIterations.getD s.maxNumIterations_
        minRelCost_ := pt.minRelCost.getD s.minRelCost_
        stateConstraintPenaltyCoeff_ :=
          pt.stateConstraintPenaltyCoeff.getD s.stateConstraintPenaltyCoeff_
        stateConstraintPenaltyBase_ :=
          pt.stateConstraintPenaltyBase.getD s.stateConstraintPenaltyBase_
        inequalityConstraintMu_ := pt.inequalityConstraintMu.getD s.inequalityConstraintMu_
        inequalityConstraintDelta_ :=
          pt.inequalityConstraintDelta.getD s.inequalityConstraintDelta_
        meritFunctionRho_ := pt.meritFunctionRho.getD s.meritFunctionRho_
        constraintStepSize_ := pt.constraintStepSize.getD s.constraintStepSize_
        displayInfo_ := pt.displayInfo.getD s.displayInfo_
        displayShortSummary_ := pt.displayShortSummary.getD s.displayShortSummary_
        absTolODE_ := pt.AbsTolODE.getD s.absTolODE_
        relTolODE_ := pt.RelTolODE.getD s.relTolODE_
        maxNumStepsPerSecond_ := pt.maxNumStepsPerSecond.getD s.maxNumStepsPerSecond_
        minTimeStep_ := pt.minTimeStep.getD s.minTimeStep_
        minAbsConstraint1ISE_ := pt.minAbsConstraint1ISE.getD s.minAbsConstraint1ISE_
        minRelConstraint1ISE_ := pt.minRelConstraint1ISE.getD s.minRelConstraint1ISE_
        simulationIsConstrained_ := pt.simulationIsConstrained.getD s.simulationIsConstrained_
        noStateConstraints_ := pt.noStateConstraints.getD s.noStateConstraints_
        checkNumericalStability_ := pt.checkNumericalStability.getD s.checkNumericalStability_
        nThreads_ := pt.nThreads.getD s.nThreads_
        threadPriority_ := pt.threadPriority.getD s.threadPriority_
        useRiccatiSolver_ := pt.useRiccatiSolver.getD s.useRiccatiSolver_
        useFeedbackPolicy_ := pt.useFeedbackPolicy.getD s.useFeedbackPolicy_
        debugPrintRollout_ := pt.debugPrintRollout.getD s.debugPrintRollout_
        debugCaching_ := pt.debugCaching.getD s.debugCaching_
        strategy_ := DDP_Strategy.LINE_SEARCH
        lineSearch_ := Line_Search.loadSettings pt.lineSearch s.lineSearch_
        trustRegion_ := s.trustRegion_ } := by
  simp only [DDP_Settings.loadSettings]
  rw [h]
  simp [loadPtreeValue_eq_getD]

lemma loadSettings_eq_trust_region (pt : ConfigFile) (verbose : Bool) (s : DDP_Settings)
    (h : DDP_Strategy.ofText (loadPtreeValue pt.strategy s.strategy_.toText verbose) =
      DDP_Strategy.TRUST_REGION) :
    DDP_Settings.loadSettings pt verbose s =
      { maxNumIterations_ := pt.maxNumIterations.getD s.maxNumIterations_
        minRelCost_ := pt.minRelCost.getD s.minRelCost_
        stateConstraintPenaltyCoeff_ :=
          pt.stateConstraintPenaltyCoeff.getD s.stateConstraintPenaltyCoeff_
        stateConstraintPenaltyBase_ :=
          pt.stateConstraintPenaltyBase.getD s.stateConstraintPenaltyBase_
        inequalityConstraintMu_ := pt.inequalityConstraintMu.getD s.inequalityConstraintMu_
        inequalityConstraintDelta_ :=
          pt.inequalityConstraintDelta.getD s.inequalityConstraintDelta_
        meritFunctionRho_ := pt.meritFunctionRho.getD s.meritFunctionRho_
        constraintStepSize_ := pt.constraintStepSize.getD s.constraintStepSize_
        displayInfo_ := pt.displayInfo.getD s.displayInfo_
        displayShortSummary_ := pt.displayShortSummary.getD s.displayShortSummary_
        absTolODE_ := pt.AbsTolODE.getD s.absTolODE_
        relTolODE_ := pt.RelTolODE.getD s.relTolODE_
        maxNumStepsPerSecond_ := pt.maxNumStepsPerSecond.getD s.maxNumStepsPerSecond_
        minTimeStep_ := pt.minTimeStep.getD s.minTimeStep_
        minAbsConstraint1ISE_ := pt.minAbsConstraint1ISE.getD s.minAbsConstraint1ISE_
        minRelConstraint1ISE_ := pt.minRelConstraint1ISE.getD s.minRelConstraint1ISE_
        simulationIsConstrained_ := pt.simulationIsConstrained.getD s.simulationIsConstrained_
        noStateConstraints_ := pt.noStateConstraints.getD s.noStateConstraints_
        checkNumericalStability_ := pt.checkNumericalStability.getD s.checkNumericalStability_
        nThreads_ := pt.nThreads.getD s.nThreads_
        threadPriority_ := pt.threadPriority.getD s.threadPriority_
        useRiccatiSolver_ := pt.useRiccatiSolver.getD s.useRiccatiSolver_
        useFeedbackPolicy_ := pt.useFeedbackPolicy.getD s.useFeedbackPolicy_
        debugPrintRollout_ := pt.debugPrintRollout.getD s.debugPrintRollout_
        debugCaching_ := pt.debugCaching.getD s.debugCaching_
        strategy_ := DDP_Strategy.TRUST_REGION
        lineSearch_ := s.lineSearch_
        trustRegion_ := Trust_Region.loadSettings pt.trustRegion s.trustRegion_ } := by
  simp only [DDP_Settings.loadSettings]
  rw [h]
  simp [loadPtreeValue_eq_getD]

/-- C2: after loadSettings on a default-constructed DDP_Settings, every
member whose key is absent from the file keeps exactly its documented
default value, and every member whose key is present takes the stored value,
independently of all other keys; the strategy member defaults to LINE_SEARCH
when its key is absent and follows the stored name when present. -/
theorem ddp_loadSettings_defaults_and_overrides (pt : ConfigFile) (verbose : Bool)
    (r : DDP_Settings) (hr : r = DDP_Settings.loadSettings pt verbose ddpDefault) :
    r.nThreads_ = pt.nThreads.getD 1 ∧
      r.threadPriority_ = pt.threadPriority.getD 99 ∧
      r.maxNumIterations_ = pt.maxNumIterations.getD 15 ∧
      r.minRelCost_ = pt.minRelCost.getD (1 / 1000) ∧
      r.stateConstraintPenaltyCoeff_ = pt.stateConstraintPenaltyCoeff.getD 0 ∧
      r.stateConstraintPenaltyBase_ = pt.stateConstraintPenaltyBase.getD 1 ∧
      r.inequalityConstraintMu_ = pt.inequalityConstraintMu.getD 0 ∧
      r.inequalityConstraintDelta_ = pt.inequalityConstraintDelta.getD (1 / 1000000) ∧
      r.meritFunctionRho_ = pt.meritFunctionRho.getD 1 ∧
      r.constraintStepSize_ = pt.constraintStepSize.getD 1 ∧
      r.displayInfo_ = pt.displayInfo.getD false ∧
      r.displayShortSummary_ = pt.displayShortSummary.getD false ∧
      r.absTolODE_ = pt.AbsTolODE.getD (1 / 1000000000) ∧
      r.relTolODE_ = pt.RelTolODE.getD (1 / 1000000) ∧
      r.maxNumStepsPerSecond_ = pt.maxNumStepsPerSecond.getD 10000 ∧
      r.minTimeStep_ = pt.minTimeStep.getD (1 / 1000) ∧
      r.minAbsConstraint1ISE_ = pt.minAbsConstraint1ISE.getD (1 / 1000) ∧
      r.minRelConstraint1ISE_ = pt.minRelConstraint1ISE.getD (1 / 1000) ∧
      r.simulationIsConstrained_ = pt.simulationIsConstrained.getD false ∧
      r.noStateConstraints_ = pt.noStateConstraints.getD false ∧
      r.checkNumericalStability_ = pt.checkNumericalStability.getD true ∧
      r.useRiccatiSolver_ = pt.useRiccatiSolver.getD true ∧
      r.useFeedbackPolicy_ = pt.useFeedbackPolicy.getD false ∧
      r.debugPrintRollout_ = pt.debugPrintRollout.getD false ∧
      r.debugCaching_ = pt.debugCaching.getD false ∧
      (pt.strategy = none → r.strategy_ = DDP_Strategy.LINE_SEARCH) ∧
      (∀ v : DDP_Strategy, pt.strategy = some v.toText → r.strategy_ = v) := by
  subst hr
  cases h : DDP_Strategy.ofText
      (loadPtreeValue pt.strategy (DDP_Settings.strategy_ ddpDefault).toText verbose) with
  | LINE_SEARCH =>
    rw [loadSettings_eq_line_search pt verbose ddpDefault h]
    refine ⟨rfl, rfl, rfl, rfl, rfl, rfl, rfl, rfl, rfl, rfl, rfl, rfl, rfl, rfl, rfl,
      rfl, rfl, rfl, rfl, rfl, rfl, rfl, rfl, rfl, rfl, fun _ => rfl, ?_⟩
    intro v hv
    rw [hv, loadPtreeValue_eq_getD] at h
    simp only [Option.getD_some] at h
    rw [ofText_toText] at h
    exact h.symm
  | TRUST_REGION =>
    rw [loadSettings_eq_trust_region pt verbose ddpDefault h]
    refine ⟨rfl, rfl, rfl, rfl, rfl, rfl, rfl, rfl, rfl, rfl, rfl, rfl, rfl, rfl, rfl,
      rfl, rfl, rfl, rfl, rfl, rfl, rfl, rfl, rfl, rfl, ?_, ?_⟩
    · intro hnone
      rw [hnone, loadPtreeValue_eq_getD] at h
      simp only [Option.getD_none] at h
      rw [ofText_toText] at h
      exact absurd h (by decide)
    · intro v hv
      rw [hv, loadPtreeValue_eq_getD] at h
      simp only [Option.getD_some] at h
      rw [ofText_toText] at h
      exact h.symm

/-- Witness for C2: a file defining only maxNumIterations overrides that
member alone; minRelCost keeps its default 1/1000 and the strategy keeps its
default LINE_SEARCH. -/
theorem ddp_loadSettings_defaults_and_overrides_witness :
    (DDP_Settings.loadSettings { maxNumIterations := some 3 } false ddpDefault).maxNumIterations_ = 3 ∧
      (DDP_Settings.loadSettings { maxNumIterations := some 3 } false ddpDefault).minRelCost_ = 1 / 1000 ∧
      (DDP_Settings.loadSettings { maxNumIterations := some 3 } false ddpDefault).strategy_ =
        DDP_Strategy.LINE_SEARCH :=
  ⟨(ddp_loadSettings_defaults_and_overrides { maxNumIterations := some 3 } false _ rfl).2.2.1,
   (ddp_loadSettings_defaults_and_overrides { maxNumIterations := some 3 } false _ rfl).2.2.2.1,
   (ddp_loadSettings_defaults_and_overrides { maxNumIterations := some 3 } false _
      rfl).2.2.2.2.2.2.2.2.2.2.2.2.2.2.2.2.2.2.2.2.2.2.2.2.2.1 rfl⟩

/-- C3: loadSettings loads exactly one strategy-specific sub-configuration
block, selected by the loaded strategy value: the lineSearch block when the
strategy is LINE_SEARCH, the trustRegion block when it is TRUST_REGION; the
non-selected sub-settings member keeps its default value. -/
theorem ddp_loadSettings_strategy_block (pt : ConfigFile) (verbose : Bool)
    (r : DDP_Settings) (hr : r = DDP_Settings.loadSettings pt verbose ddpDefault) :
    (r.strategy_ = DDP_Strategy.LINE_SEARCH →
        r.lineSearch_ = Line_Search.loadSettings pt.lineSearch ddpDefault.lineSearch_ ∧
          r.trustRegion_ = ddpDefault.trustRegion_) ∧
      (r.strategy_ = DDP_Strategy.TRUST_REGION →
        r.trustRegion_ = Trust_Region.loadSettings pt.trustRegion ddpDefault.trustRegion_ ∧
          r.lineSearch_ = ddpDefault.lineSearch_) := by
  subst hr
  cases h : DDP_Strategy.ofText
      (loadPtreeValue pt.strategy (DDP_Settings.strategy_ ddpDefault).toText verbose) with
  | LINE_SEARCH =>
    rw [loadSettings_eq_line_search pt verbose ddpDefault h]
    exact ⟨fun _ => ⟨rfl, rfl⟩, fun hT => nomatch hT⟩
  | TRUST_REGION =>
    rw [loadSettings_eq_trust_region pt verbose ddpDefault h]
    exact ⟨(fun hL => nomatch hL), fun _ => ⟨rfl, rfl⟩⟩

/-- Witness for C3: a file selecting the trust-region strategy and carrying a
trustRegion block loads that block and leaves the lineSearch member at its
default. -/
theorem ddp_loadSettings_strategy_block_witness :
    (DDP_Settings.loadSettings
        { strategy := some "trust-region", trustRegion := some { options := [("radius", 2)] } }
        false ddpDefault).trustRegion_ =
      Trust_Region.loadSettings (some { options := [("radius", 2)] }) ddpDefault.trustRegion_ ∧
      (DDP_Settings.loadSettings
          { strategy := some "trust-region", trustRegion := some { options := [("radius", 2)] } }
          false ddpDefault).lineSearch_ = ddpDefault.lineSearch_ :=
  (ddp_loadSettings_strategy_block
      { strategy := some "trust-region", trustRegion := some { options := [("radius", 2)] } }
      false _ rfl).2 (by decide)

/-- C6: a rollout integration step that exceeds the tolerance is rejected
and retried with a smaller step, down to the minimum step size: the step
fails only with IntegrationFailure and only when even the minimum step size
exceeds the tolerance; conversely, when every admissible step size exceeds
the tolerance (the minimum step forced above the natural integration need),
the step fails with IntegrationFailure. -/
theorem rollout_minTimeStep_integrationFailure (err : ℚ → ℚ) (tol minStep : ℚ) (k : ℕ) :
    (∀ e, rolloutStep err tol minStep k = .error e →
        e = DdpError.IntegrationFailure ∧ tol < err minStep) ∧
      (0 < minStep → (∀ h, minStep ≤ h → tol < err h) →
        rolloutStep err tol minStep k = .error DdpError.IntegrationFailure) := by
  induction k with
  | zero =>
    constructor
    · intro e he
      by_cases hc : err minStep ≤ tol
      · simp [rolloutStep, hc] at he
      · simp only [rolloutStep, if_neg hc, Except.error.injEq] at he
        exact ⟨he.symm, not_le.mp hc⟩
    · intro hpos hall
      have hlt : tol < err minStep := hall minStep le_rfl
      simp [rolloutStep, not_le.mpr hlt]
  | succ k ih =>
    constructor
    · intro e he
      by_cases hc : err (minStep * 2 ^ (k + 1)) ≤ tol
      · simp [rolloutStep, hc] at he
      · simp only [rolloutStep, if_neg hc] at he
        exact ih.1 e he
    · intro hpos hall
      have hone : (1 : ℚ) ≤ 2 ^ (k + 1) := one_le_pow₀ (by norm_num)
      have hbig : minStep ≤ minStep * 2 ^ (k + 1) := le_mul_of_one_le_right hpos.le hone
      have hlt : tol < err (minStep * 2 ^ (k + 1)) := hall _ hbig
      simp only [rolloutStep, if_neg (not_le.mpr hlt)]
      exact ih.2 hpos hall

/-- Witness for C6: with unit local error, zero tolerance and minimum step
1, the step fails with IntegrationFailure after two rejections. -/
theorem rollout_minTimeStep_integrationFailure_witness :
    (0 : ℚ) < 1 ∧
      rolloutStep (fun _ => 1) 0 1 1 = .error DdpError.IntegrationFailure :=
  ⟨by norm_num,
   (rollout_minTimeStep_integrationFailure (fun _ => 1) 0 1 1).2 (by norm_num)
     (fun _ _ => by norm_num)⟩

lemma attemptSamples_map (delta : ℚ) (samples : List Sym2) (j : ℕ) :
    attemptSamples delta (samples.map (regularizeHessian delta)) j =
      attemptSamples delta samples (j + 1) := by
  induction j with
  | zero => rfl
  | succ j ih => simp only [attemptSamples, ih]

/-- C8: with checkNumericalStability set, the backward pass fails with
NumericalInstability, returning no gains, whenever some sample's
value-function Hessian is not positive semidefinite; it returns the gains
of all samples when every Hessian is positive semidefinite; and when every
regularization retry attempt in the bounded budget fails, the whole solve is
reported Failed. -/
theorem checkNumericalStability_backwardPass (samples : List Sym2) (delta : ℚ) :
    ((∃ M ∈ samples, M.isPSD = false) →
        backwardPass true samples = .error DdpError.NumericalInstability) ∧
      ((∀ M ∈ samples, M.isPSD = true) →
        backwardPass true samples = .ok (samples.map riccatiGain)) ∧
      (∀ n, (∀ j, j < n →
          ∃ e, backwardPass true (attemptSamples delta samples j) = .error e) →
        solveBackward true samples delta n = .error DdpError.Failed) := by
  refine ⟨?_, ?_, ?_⟩
  · induction samples with
    | nil =>
      rintro ⟨M, hM, -⟩
      simp at hM
    | cons M rest ih =>
      rintro ⟨N, hN, hbad⟩
      rcases List.mem_cons.mp hN with hNM | hNrest
      · subst hNM
        simp [backwardPass, hbad]
      · by_cases hpsd : M.isPSD
        · simp [backwardPass, hpsd, ih ⟨N, hNrest, hbad⟩]
        · have hfalse : M.isPSD = false := Bool.eq_false_iff.mpr hpsd
          simp [backwardPass, hfalse]
  · induction samples with
    | nil => intro _; rfl
    | cons M rest ih =>
      intro hall
      have hM : M.isPSD = true := hall M (List.mem_cons_self M rest)
      have hrest := ih fun N hN => hall N (List.mem_cons_of_mem M hN)
      simp [backwardPass, hM, hrest]
  · intro n
    induction n generalizing samples with
    | zero => intro _; rfl
    | succ n ih =>
      intro hfail
      obtain ⟨e, he⟩ := hfail 0 (Nat.succ_pos n)
      have he0 : backwardPass true samples = .error e := he
      simp only [solveBackward, he0]
      exact ih (samples.map (regularizeHessian delta)) fun j hj => by
        rw [attemptSamples_map]
        exact hfail (j + 1) (Nat.succ_lt_succ hj)

/-- Witness for C8: the single sample with Hessian diag(-1, 0) is not
positive semidefinite, the backward pass aborts with NumericalInstability,
and with zero regularization both retries fail so the solve is Failed. -/
theorem checkNumericalStability_backwardPass_witness :
    Sym2.isPSD { a := -1, b := 0, c := 0 } = false ∧
      backwardPass true [{ a := -1, b := 0, c := 0 }] =
        .error DdpError.NumericalInstability ∧
      solveBackward true [{ a := -1, b := 0, c := 0 }] 0 2 = .error DdpError.Failed := by
  refine ⟨by decide, ?_, ?_⟩
  · exact (checkNumericalStability_backwardPass [{ a := -1, b := 0, c := 0 }] 0).1
      ⟨{ a := -1, b := 0, c := 0 }, by decide, by decide⟩
  · refine (checkNumericalStability_backwardPass [{ a := -1, b := 0, c := 0 }] 0).2.2 2
      fun j hj => ⟨DdpError.NumericalInstability, ?_⟩
    interval_cases j
    · rfl
    · norm_num [attemptSamples, regularizeHessian, backwardPass, Sym2.isPSD]

end OCS2
